import Mathlib

/-!
Shallow embedding of the frame-orchestration core of the VRV repository
(state/mod.rs, state/render_window.rs, state/render_hmd.rs, state/swapchain.rs,
context/mod.rs, context/render_window.rs, context/render_hmd.rs,
wrap_vulkan/sync.rs, wrap_vulkan/surface.rs, wrap_vulkan/context.rs,
examples/simple/main.rs).

External GPU / VR-runtime calls are modelled as events; each Rust function is
translated to a Lean function returning the ordered list of external calls it
performs on its full-success path (failure of a fallible call makes the Rust
function return early through the question-mark operator, so the set of
observable behaviours is the set of prefixes of that list) together with the
updated state and the returned value where the claims need them.
-/

namespace VRV

/-- Rust Result, err and ok cases. -/
inductive Result (ε α : Type) where
  | err (e : ε)
  | ok (a : α)
  deriving DecidableEq

/-- Vulkan error codes relevant to the window acquire and present path. -/
inductive VkErr where
  | outOfDateKhr
  | surfaceLostKhr
  | deviceLost
  deriving DecidableEq

/-- vk::Extent2D with Nat components (u32 in the source). -/
structure Extent2D where
  width : Nat
  height : Nat
  deriving DecidableEq

/-- vk::PresentModeKHR variants the window-swapchain code can encounter. -/
inductive PresentModeKHR where
  | immediate
  | mailbox
  | fifo
  | fifoRelaxed
  deriving DecidableEq

/-- PipelineStageFlags::COLOR_ATTACHMENT_OUTPUT bit value (0x00000400). -/
def colorAttachmentOutputBit : Nat := 1024

/-- External Vulkan / OpenXR calls made by the orchestration layer.  Handles
(fences, semaphores, command buffers, image views, framebuffers) are Nats. -/
inductive Event where
  | waitForFences (fence : Nat)
  | resetFences (fence : Nat)
  | resetCommandBuffer (cb : Nat)
  | beginCommandBuffer (cb : Nat)
  | cmdBeginRenderPass (cb frameBuffer : Nat)
  | cmdBindPipeline (cb : Nat)
  | cmdSetViewport (cb : Nat)
  | cmdSetScissor (cb : Nat)
  | cmdBindVertexBuffers (cb : Nat)
  | cmdBindIndexBuffer (cb : Nat)
  | cmdBindDescriptorSets (cb : Nat)
  | cmdDrawIndexed (cb indexCount : Nat)
  | cmdEndRenderPass (cb : Nat)
  | endCommandBuffer (cb : Nat)
  | queueSubmit (cbs waitSems waitStages signalSems : List Nat) (fence : Option Nat)
  | queuePresent (waitSems imageIndices : List Nat)
  | acquireNextImage (semaphore : Nat)
  | queueWaitIdle
  | frameWait
  | frameStreamBegin
  | frameStreamEnd (layerCount : Nat)
  | xrAcquireImage
  | xrWaitImage
  | xrReleaseImage
  | locateViews
  | destroyImageView (v : Nat)
  | destroyFramebuffer (f : Nat)
  | destroySwapchain
  | destroyDepthImage
  | createDepthImage
  | createSwapchain (presentMode : PresentModeKHR) (minImageCount : Nat)
  | createImageView (i : Nat)
  | createFramebuffer (i : Nat)
  deriving DecidableEq

/-- One swapchain image slot: image, view and framebuffer (SwapElement). -/
structure SwapElement where
  image : Nat
  view : Nat
  frameBuffer : Nat
  deriving DecidableEq

/-- The window swapchain and its per-image resources (SwapchainWindow). -/
structure SwapchainWindow where
  extent : Extent2D
  handle : Nat
  depthImage : Nat
  elements : List SwapElement
  deriving DecidableEq

/-- The fields of struct State (state/mod.rs) that the frame-orchestration
claims refer to.  Handles held in Vecs in the source are Lists of Nat here. -/
structure State where
  lastUsedAcquireSemaphore : Nat
  windowSemaphoresImageAcquired : List Nat
  windowSemaphoresRenderingFinished : List Nat
  windowFencesRenderingFinished : List Nat
  windowCommandBuffers : List Nat
  windowSwapchain : SwapchainWindow
  hmdFencesRenderingFinished : List Nat
  hmdCommandBuffers : List Nat
  hmdSwapchainElements : List SwapElement
  deriving DecidableEq

/-- Return value of State::pre_render_window. -/
structure PreRenderInfoWindow where
  imageIndex : Nat
  imageAcquiredSemaphore : Nat
  deriving DecidableEq

/-- OpenXR frame state: predicted display time plus the should-render flag. -/
structure FrameState where
  predictedDisplayTime : Int
  shouldRender : Bool
  deriving DecidableEq

/-- Return value of State::pre_render_hmd; imageIndex is none when the runtime
says the app should not render this iteration. -/
structure PreRenderInfoHMD where
  imageIndex : Option Nat
  frameState : FrameState
  deriving DecidableEq

/-- State::pre_render_window (state/render_window.rs 16-37): reads the ring
semaphore at the cursor, advances the cursor by one modulo the ring length
(before the acquire call, so the advance survives an acquire failure), then
calls acquire_next_image with that semaphore.  The acquire outcome is the
oracle argument. -/
def State.preRenderWindow (s : State) (acquireResult : Result VkErr (Nat × Bool)) :
    State × List Event × Result VkErr PreRenderInfoWindow :=
  let imageAcquiredSemaphore :=
    s.windowSemaphoresImageAcquired.getD s.lastUsedAcquireSemaphore 0
  let s2 := { s with lastUsedAcquireSemaphore :=
      (s.lastUsedAcquireSemaphore + 1) % s.windowSemaphoresImageAcquired.length }
  match acquireResult with
  | Result.err e => (s2, [Event.acquireNextImage imageAcquiredSemaphore], Result.err e)
  | Result.ok (imageIndex, _suboptimal) =>
      (s2, [Event.acquireNextImage imageAcquiredSemaphore],
        Result.ok { imageIndex := imageIndex,
                    imageAcquiredSemaphore := imageAcquiredSemaphore })

/-- Call sequence of State::render_window (state/render_window.rs 39-147) on
its full-success path: wait_and_reset the slot fence, reset and re-record the
slot command buffer, submit waiting on the acquire semaphore and signalling
the slot semaphore and fence, then present waiting on the slot semaphore. -/
def State.renderWindowCalls (s : State) (info : PreRenderInfoWindow)
    (numIndices : Nat) : List Event :=
  let i := info.imageIndex
  let renderingFinishedSemaphore := s.windowSemaphoresRenderingFinished.getD i 0
  let renderingFinishedFence := s.windowFencesRenderingFinished.getD i 0
  let commandBuffer := s.windowCommandBuffers.getD i 0
  let frameBuffer := (s.windowSwapchain.elements.getD i ⟨0, 0, 0⟩).frameBuffer
  [Event.waitForFences renderingFinishedFence,
   Event.resetFences renderingFinishedFence,
   Event.resetCommandBuffer commandBuffer,
   Event.beginCommandBuffer commandBuffer,
   Event.cmdBeginRenderPass commandBuffer frameBuffer,
   Event.cmdBindPipeline commandBuffer,
   Event.cmdSetViewport commandBuffer,
   Event.cmdSetScissor commandBuffer,
   Event.cmdBindVertexBuffers commandBuffer,
   Event.cmdBindIndexBuffer commandBuffer,
   Event.cmdBindDescriptorSets commandBuffer,
   Event.cmdDrawIndexed commandBuffer numIndices,
   Event.cmdEndRenderPass commandBuffer,
   Event.endCommandBuffer commandBuffer,
   Event.queueSubmit [commandBuffer] [info.imageAcquiredSemaphore]
     [colorAttachmentOutputBit] [renderingFinishedSemaphore]
     (some renderingFinishedFence),
   Event.queuePresent [renderingFinishedSemaphore] [i]]

/-- Scan of a trace: true when the first reset of command buffer cb (if any)
comes strictly after a wait on fence. -/
def waitGatesReset (fence cb : Nat) : List Event → Bool
  | [] => true
  | Event.waitForFences f :: rest =>
      f == fence || waitGatesReset fence cb rest
  | Event.resetCommandBuffer c :: rest =>
      !(c == cb) && waitGatesReset fence cb rest
  | _ :: rest => waitGatesReset fence cb rest

/-- State::pre_render_hmd (state/render_hmd.rs 16-30): block on frame_wait,
begin the frame stream, and acquire a runtime image only when the frame state
says the app should render; otherwise return image_index none.  The frame
state and the acquire outcome are oracle arguments. -/
def State.preRenderHmd (frameState : FrameState)
    (acquireResult : Result String Nat) :
    List Event × Result String PreRenderInfoHMD :=
  if frameState.shouldRender then
    match acquireResult with
    | Result.err e =>
        ([Event.frameWait, Event.frameStreamBegin, Event.xrAcquireImage],
         Result.err e)
    | Result.ok imageIndex =>
        ([Event.frameWait, Event.frameStreamBegin, Event.xrAcquireImage],
         Result.ok { imageIndex := some imageIndex, frameState := frameState })
  else
    ([Event.frameWait, Event.frameStreamBegin],
     Result.ok { imageIndex := none, frameState := frameState })

/-- Call sequence of State::render_hmd (state/render_hmd.rs 32-152) when an
image index is present: wait for the runtime image, wait_and_reset the slot
fence, reset and re-record the slot command buffer (the drawing body is still
a TODO in this snapshot), locate views, submit with no semaphores signalling
the slot fence, release the runtime image, and end the frame with one
projection layer. -/
def State.renderHmdCalls (s : State) (i : Nat) : List Event :=
  let renderingFinishedFence := s.hmdFencesRenderingFinished.getD i 0
  let commandBuffer := s.hmdCommandBuffers.getD i 0
  let frameBuffer := (s.hmdSwapchainElements.getD i ⟨0, 0, 0⟩).frameBuffer
  [Event.xrWaitImage,
   Event.waitForFences renderingFinishedFence,
   Event.resetFences renderingFinishedFence,
   Event.resetCommandBuffer commandBuffer,
   Event.beginCommandBuffer commandBuffer,
   Event.cmdBeginRenderPass commandBuffer frameBuffer,
   Event.cmdEndRenderPass commandBuffer,
   Event.endCommandBuffer commandBuffer,
   Event.locateViews,
   Event.queueSubmit [commandBuffer] [] [] [] (some renderingFinishedFence),
   Event.xrReleaseImage,
   Event.frameStreamEnd 1]

/-- State::render_hmd (state/render_hmd.rs 32-152): with image_index none it
only ends the frame stream with an empty layer slice and returns Ok; with an
index it performs renderHmdCalls.  endResult is the oracle for the
frame_stream.end call on the skip path. -/
def State.renderHmd (s : State) (info : PreRenderInfoHMD)
    (endResult : Result String Unit) : List Event × Result String Unit :=
  match info.imageIndex with
  | none =>
      ([Event.frameStreamEnd 0],
       match endResult with
       | Result.err e => Result.err e
       | Result.ok _ => Result.ok ())
  | some i => (s.renderHmdCalls i, Result.ok ())

/-- The window half of struct Context (context/mod.rs 38-51). -/
structure ContextWindow where
  lastUsedAcquireSemaphore : Nat
  semaphoresImageAcquired : List Nat
  swapchain : SwapchainWindow
  commandBuffers : List Nat
  semaphoresRenderingFinished : List Nat
  fencesRenderingFinished : List Nat
  deriving DecidableEq

/-- The HMD half of struct Context (context/mod.rs 27-37). -/
structure ContextHMD where
  swapchainElements : List SwapElement
  commandBuffers : List Nat
  fencesRenderingFinished : List Nat
  deriving DecidableEq

/-- Context::pre_render_hmd (context/render_hmd.rs 20-42): this variant ends
the frame stream with an empty layer slice itself when should_render is
false, before returning image_index none. -/
def Context.preRenderHmd (frameState : FrameState)
    (acquireResult : Result String Nat) :
    List Event × Result String PreRenderInfoHMD :=
  if frameState.shouldRender then
    match acquireResult with
    | Result.err e =>
        ([Event.frameWait, Event.frameStreamBegin, Event.xrAcquireImage],
         Result.err e)
    | Result.ok imageIndex =>
        ([Event.frameWait, Event.frameStreamBegin, Event.xrAcquireImage],
         Result.ok { imageIndex := some imageIndex, frameState := frameState })
  else
    ([Event.frameWait, Event.frameStreamBegin, Event.frameStreamEnd 0],
     Result.ok { imageIndex := none, frameState := frameState })

/-- Call sequence of Context::render_window (context/render_window.rs 57-155).
The command buffer, rendering-finished fence and rendering-finished semaphore
are caller-supplied arguments in this variant, and the function resets the
command buffer immediately: it performs no fence wait of its own. -/
def Context.renderWindowCalls (w : ContextWindow) (info : PreRenderInfoWindow)
    (numIndices commandBuffer renderingFinishedFence
      renderingFinishedSemaphore : Nat) : List Event :=
  let frameBuffer := (w.swapchain.elements.getD info.imageIndex ⟨0, 0, 0⟩).frameBuffer
  [Event.resetCommandBuffer commandBuffer,
   Event.beginCommandBuffer commandBuffer,
   Event.cmdBeginRenderPass commandBuffer frameBuffer,
   Event.cmdBindPipeline commandBuffer,
   Event.cmdSetViewport commandBuffer,
   Event.cmdSetScissor commandBuffer,
   Event.cmdBindVertexBuffers commandBuffer,
   Event.cmdBindIndexBuffer commandBuffer,
   Event.cmdBindDescriptorSets commandBuffer,
   Event.cmdDrawIndexed commandBuffer numIndices,
   Event.cmdEndRenderPass commandBuffer,
   Event.endCommandBuffer commandBuffer,
   Event.queueSubmit [commandBuffer] [info.imageAcquiredSemaphore]
     [colorAttachmentOutputBit] [renderingFinishedSemaphore]
     (some renderingFinishedFence),
   Event.queuePresent [renderingFinishedSemaphore] [info.imageIndex]]

/-- Call sequence of Context::record_hmd (context/render_hmd.rs 44-114) for a
present image index: wait for the runtime image, wait_and_reset the slot
fence, then reset and re-record the slot command buffer with the draw. -/
def Context.recordHmdCalls (h : ContextHMD) (i numIndices : Nat) : List Event :=
  let renderingFinishedFence := h.fencesRenderingFinished.getD i 0
  let commandBuffer := h.commandBuffers.getD i 0
  let frameBuffer := (h.swapchainElements.getD i ⟨0, 0, 0⟩).frameBuffer
  [Event.xrWaitImage,
   Event.waitForFences renderingFinishedFence,
   Event.resetFences renderingFinishedFence,
   Event.resetCommandBuffer commandBuffer,
   Event.beginCommandBuffer commandBuffer,
   Event.cmdBeginRenderPass commandBuffer frameBuffer,
   Event.cmdBindPipeline commandBuffer,
   Event.cmdBindVertexBuffers commandBuffer,
   Event.cmdBindIndexBuffer commandBuffer,
   Event.cmdBindDescriptorSets commandBuffer,
   Event.cmdDrawIndexed commandBuffer numIndices,
   Event.cmdEndRenderPass commandBuffer,
   Event.endCommandBuffer commandBuffer]

/-- Scan of a trace: true when no event satisfying ban occurs strictly before
the first event satisfying good. -/
def noneBanBeforeGood (good ban : Event → Bool) : List Event → Bool
  | [] => true
  | e :: rest => good e || (!ban e && noneBanBeforeGood good ban rest)

/-- Scan of a trace: true when after any event satisfying trigger, no later
event satisfies ban. -/
def noneBanAfterTrigger (trigger ban : Event → Bool) : List Event → Bool
  | [] => true
  | e :: rest =>
      (if trigger e then rest.all (fun x => !(ban x)) else true)
        && noneBanAfterTrigger trigger ban rest

/-- vk::SurfaceCapabilitiesKHR fields used by the window-swapchain code. -/
structure SurfaceCapabilities where
  maxImageCount : Nat
  minImageExtent : Extent2D
  maxImageExtent : Extent2D
  currentExtent : Extent2D
  deriving DecidableEq

/-- Largest u32 value; a current_extent height of this value means the
swapchain extent can be chosen freely. -/
def u32Max : Nat := 4294967295

/-- Negotiated window image count (wrap_vulkan/surface.rs 54-58): 3 capped at
max_image_count when max_image_count is positive, else 3. -/
def detailImageCount (maxImageCount : Nat) : Nat :=
  if 0 < maxImageCount then min 3 maxImageCount else 3

/-- Base::get_allowed_extend (wrap_vulkan/context.rs 375-392): when the
surface reports a free current extent, clamp the wanted extent between the
min and max image extents; otherwise the current extent is forced. -/
def getAllowedExtent (caps : SurfaceCapabilities) (wanted : Extent2D) : Extent2D :=
  if caps.currentExtent.height = u32Max then
    { width := max caps.minImageExtent.width
        (min caps.maxImageExtent.width wanted.width),
      height := max caps.minImageExtent.height
        (min caps.maxImageExtent.height wanted.height) }
  else
    caps.currentExtent

/-- SwapchainWindow::new (state/swapchain.rs 38-145): create the depth image,
require the IMMEDIATE present mode (else the error "No suitable present
mode"), create the swapchain asking for the negotiated image count, then bail
unless the driver returned exactly that many images, and build one
view + framebuffer per image.  driverImages is the oracle for
get_swapchain_images. -/
def SwapchainWindow.create (caps : SurfaceCapabilities)
    (presentModes : List PresentModeKHR) (driverImages : List Nat)
    (wanted : Extent2D) : List Event × Result String SwapchainWindow :=
  let extent := getAllowedExtent caps wanted
  let imageCount := detailImageCount caps.maxImageCount
  match presentModes.find? (fun m => m == PresentModeKHR.immediate) with
  | none => ([Event.createDepthImage], Result.err "No suitable present mode")
  | some presentMode =>
      if driverImages.length = imageCount then
        ([Event.createDepthImage, Event.createSwapchain presentMode imageCount]
           ++ (List.range driverImages.length).flatMap
                (fun i => [Event.createImageView i, Event.createFramebuffer i]),
         Result.ok { extent := extent, handle := 0, depthImage := 0,
                     elements := (List.range driverImages.length).map
                       (fun i => { image := driverImages.getD i 0,
                                   view := i, frameBuffer := i }) })
      else
        ([Event.createDepthImage, Event.createSwapchain presentMode imageCount],
         Result.err "Somehow the number of images in the swapchain doesn't add up")

/-- SwapchainWindow::destroy (state/swapchain.rs 147-154): per element destroy
the view then the framebuffer, then the swapchain handle, then the depth
image. -/
def SwapchainWindow.destroyCalls (sc : SwapchainWindow) : List Event :=
  (sc.elements.flatMap fun e => [Event.destroyImageView e.view,
                              Event.destroyFramebuffer e.frameBuffer])
    ++ [Event.destroySwapchain, Event.destroyDepthImage]

/-- State::resize (state/mod.rs 325-339): queue wait-idle first (an error
there returns before anything is destroyed), then destroy the window
swapchain, then rebuild it at the window's inner size; the per-frame command
buffer, fence and semaphore arrays are not touched. -/
def State.resize (s : State) (waitIdleOk : Bool) (caps : SurfaceCapabilities)
    (presentModes : List PresentModeKHR) (driverImages : List Nat)
    (windowInnerSize : Extent2D) : List Event × Result String State :=
  if waitIdleOk then
    let destroyed := s.windowSwapchain.destroyCalls
    let created := SwapchainWindow.create caps presentModes driverImages windowInnerSize
    match created.2 with
    | Result.ok sc =>
        (Event.queueWaitIdle :: (destroyed ++ created.1),
         Result.ok { s with windowSwapchain := sc })
    | Result.err e =>
        (Event.queueWaitIdle :: (destroyed ++ created.1), Result.err e)
  else
    ([Event.queueWaitIdle], Result.err "queue wait idle failed")

/-- Classifies the destruction events of the window swapchain. -/
def Event.isDestroy : Event → Bool
  | Event.destroyImageView _ => true
  | Event.destroyFramebuffer _ => true
  | Event.destroySwapchain => true
  | Event.destroyDepthImage => true
  | _ => false

/-- Classifies the creation events of the window swapchain rebuild. -/
def Event.isCreate : Event → Bool
  | Event.createDepthImage => true
  | Event.createSwapchain _ _ => true
  | Event.createImageView _ => true
  | Event.createFramebuffer _ => true
  | _ => false

/-- create_fence (wrap_vulkan/sync.rs 16-29) with the fence modelled by its
signaled flag: the created fence is signaled exactly when asked to be. -/
def createFence (signaled : Bool) : Bool := signaled

/-- The window rendering-finished fence array built by State::new
(state/mod.rs 395-404): one fence per window image, each created signaled. -/
def stateNewWindowFencesRenderingFinished (windowImageCount : Nat) : List Bool :=
  (List.range windowImageCount).map (fun _ => createFence true)

/-- The HMD rendering-finished fence array built by State::new
(state/mod.rs 358-367): one fence per HMD image, each created signaled. -/
def stateNewHmdFencesRenderingFinished (hmdImageCount : Nat) : List Bool :=
  (List.range hmdImageCount).map (fun _ => createFence true)

/-- wait_and_reset (wrap_vulkan/sync.rs 31-41) on a fence modelled by its
signaled flag: the first component is whether the wait returned without
blocking on GPU work (true exactly when the fence was already signaled), the
second is the fence state afterwards (always reset to unsignaled). -/
def waitAndResetFence (signaled : Bool) : Bool × Bool := (signaled, false)

/-- Outcome of one window frame step of the example's event loop. -/
inductive LoopOutcome where
  | continueRunning
  | resizeAndRetry
  | panicked (e : VkErr)
  deriving DecidableEq

/-- The window part of the MainEventsCleared arm of the example event loop
(examples/simple/main.rs 339-381): pre_render_window().unwrap() panics on any
acquire error; on success the frame is rendered and the loop continues. -/
def mainFrameWindowStep (s : State) (acquireResult : Result VkErr (Nat × Bool)) :
    LoopOutcome :=
  match (s.preRenderWindow acquireResult).2.2 with
  | Result.err e => LoopOutcome.panicked e
  | Result.ok _ => LoopOutcome.continueRunning

/-- Window events distinguished by the example event loop. -/
inductive WinEvent where
  | closeRequested
  | resized (w h : Nat)
  | scaleFactorChanged (w h : Nat)
  | keyboardInput
  | otherEvent
  deriving DecidableEq

/-- Whether the WindowEvent arm of the example event loop
(examples/simple/main.rs 388-434) invokes Context::resize for the event:
only Resized and ScaleFactorChanged do. -/
def resizeInvokedOn : WinEvent → Bool
  | WinEvent.resized _ _ => true
  | WinEvent.scaleFactorChanged _ _ => true
  | _ => false

/-- State::render_window (state/render_window.rs 39-147) as trace plus
result: the external calls of its full-success path paired with the return
value as determined by the final queue_present call, whose outcome is the
presentResult oracle.  An error from queue_present propagates through the
question-mark operator as the function's error result; on success the
suboptimal flag is discarded and Ok(()) is returned. -/
def State.renderWindow (s : State) (info : PreRenderInfoWindow)
    (numIndices : Nat) (presentResult : Result VkErr Bool) :
    List Event × Result VkErr Unit :=
  (s.renderWindowCalls info numIndices,
   match presentResult with
   | Result.err e => Result.err e
   | Result.ok _suboptimal => Result.ok ())

/-- The render_window(...).unwrap() call of the example's MainEventsCleared
arm (examples/simple/main.rs 370-381): any error render_window returns—
including a present-side out-of-date—panics the loop. -/
def mainRenderWindowUnwrap (s : State) (info : PreRenderInfoWindow)
    (numIndices : Nat) (presentResult : Result VkErr Bool) : LoopOutcome :=
  match (s.renderWindow info numIndices presentResult).2 with
  | Result.err e => LoopOutcome.panicked e
  | Result.ok _ => LoopOutcome.continueRunning

/-- Classifies queue submission events. -/
def Event.isQueueSubmit : Event → Bool
  | Event.queueSubmit _ _ _ _ _ => true
  | _ => false

/-- Classifies queue present events. -/
def Event.isQueuePresent : Event → Bool
  | Event.queuePresent _ _ => true
  | _ => false

/-- Classifies draw calls. -/
def Event.isDrawCall : Event → Bool
  | Event.cmdDrawIndexed _ _ => true
  | _ => false

/-- Classifies fence waits and fence resets. -/
def Event.isFenceOp : Event → Bool
  | Event.waitForFences _ => true
  | Event.resetFences _ => true
  | _ => false

/-- Iterated calls to State::pre_render_window, one per listed acquire
outcome, threading the state through. -/
def iterPreRenderWindow (s : State) : List (Result VkErr (Nat × Bool)) → State
  | [] => s
  | r :: rs => iterPreRenderWindow (s.preRenderWindow r).1 rs

/-- A concrete State value used to instantiate theorems with hypotheses:
three window images (the negotiated minimum) and three HMD images. -/
def sampleState : State :=
  { lastUsedAcquireSemaphore := 0,
    windowSemaphoresImageAcquired := [30, 31, 32],
    windowSemaphoresRenderingFinished := [40, 41, 42],
    windowFencesRenderingFinished := [20, 21, 22],
    windowCommandBuffers := [10, 11, 12],
    windowSwapchain :=
      { extent := { width := 800, height := 600 }, handle := 7, depthImage := 9,
        elements := [{ image := 50, view := 60, frameBuffer := 70 },
                     { image := 51, view := 61, frameBuffer := 71 },
                     { image := 52, view := 62, frameBuffer := 72 }] },
    hmdFencesRenderingFinished := [120, 121, 122],
    hmdCommandBuffers := [110, 111, 112],
    hmdSwapchainElements := [{ image := 150, view := 160, frameBuffer := 170 },
                             { image := 151, view := 161, frameBuffer := 171 },
                             { image := 152, view := 162, frameBuffer := 172 }] }

/-- A concrete ContextWindow value matching sampleState's window half. -/
def sampleContextWindow : ContextWindow :=
  { lastUsedAcquireSemaphore := 0,
    semaphoresImageAcquired := [30, 31, 32],
    swapchain :=
      { extent := { width := 800, height := 600 }, handle := 7, depthImage := 9,
        elements := [{ image := 50, view := 60, frameBuffer := 70 },
                     { image := 51, view := 61, frameBuffer := 71 },
                     { image := 52, view := 62, frameBuffer := 72 }] },
    commandBuffers := [10, 11, 12],
    semaphoresRenderingFinished := [40, 41, 42],
    fencesRenderingFinished := [20, 21, 22] }

/-- A concrete ContextHMD value with three images. -/
def sampleContextHMD : ContextHMD :=
  { swapchainElements := [{ image := 150, view := 160, frameBuffer := 170 },
                          { image := 151, view := 161, frameBuffer := 171 },
                          { image := 152, view := 162, frameBuffer := 172 }],
    commandBuffers := [110, 111, 112],
    fencesRenderingFinished := [120, 121, 122] }

/-- Surface capabilities with a freely choosable extent and max_image_count 3
(so the negotiated window image count is 3). -/
def sampleCaps : SurfaceCapabilities :=
  { maxImageCount := 3,
    minImageExtent := { width := 1, height := 1 },
    maxImageExtent := { width := 4096, height := 4096 },
    currentExtent := { width := 0, height := u32Max } }

/-- Surface capabilities whose max_image_count dropped to 2, so the
negotiated window image count changes to 2. -/
def shrunkCaps : SurfaceCapabilities :=
  { maxImageCount := 2,
    minImageExtent := { width := 1, height := 1 },
    maxImageExtent := { width := 4096, height := 4096 },
    currentExtent := { width := 0, height := u32Max } }

/-- The window swapchain built from sampleCaps with the driver returning
images 100, 101, 102 at a wanted extent of 800 by 600. -/
def createdSwapchain : SwapchainWindow :=
  { extent := { width := 800, height := 600 }, handle := 0, depthImage := 0,
    elements := [{ image := 100, view := 0, frameBuffer := 0 },
                 { image := 101, view := 1, frameBuffer := 1 },
                 { image := 102, view := 2, frameBuffer := 2 }] }

/-- The state produced by resizing sampleState under sampleCaps (unchanged
negotiated image count of three). -/
def resizedSampleState : State :=
  { sampleState with windowSwapchain := createdSwapchain }

/-- The state produced by resizing sampleState under shrunkCaps: the window
swapchain now has two slots but every per-frame array still has three. -/
def staleState : State :=
  { sampleState with windowSwapchain :=
      { extent := { width := 800, height := 600 }, handle := 0, depthImage := 0,
        elements := [{ image := 100, view := 0, frameBuffer := 0 },
                     { image := 101, view := 1, frameBuffer := 1 }] } }

theorem all_take {α : Type} (p : α → Bool) (l : List α) (h : l.all p = true)
    (k : Nat) : (l.take k).all p = true := by
  rw [List.all_eq_true] at h ⊢
  intro x hx
  exact h x (List.take_subset k l hx)

theorem waitGatesReset_take (fence cb : Nat) :
    ∀ l : List Event, waitGatesReset fence cb l = true →
      ∀ k, waitGatesReset fence cb (l.take k) = true := by
  intro l
  induction l with
  | nil =>
      intro _ k
      cases k <;> simp [waitGatesReset]
  | cons e rest ih =>
      intro h k
      cases k with
      | zero => simp [waitGatesReset]
      | succ k =>
          cases e with
          | waitForFences f =>
              simp only [waitGatesReset, Bool.or_eq_true] at h ⊢
              rcases h with h | h
              · exact Or.inl h
              · exact Or.inr (ih h k)
          | resetCommandBuffer c =>
              simp only [waitGatesReset, Bool.and_eq_true] at h ⊢
              exact ⟨h.1, ih h.2 k⟩
          | _ => exact ih h k

theorem noneBanBeforeGood_take (good ban : Event → Bool) :
    ∀ l : List Event, noneBanBeforeGood good ban l = true →
      ∀ k, noneBanBeforeGood good ban (l.take k) = true := by
  intro l
  induction l with
  | nil =>
      intro _ k
      cases k <;> simp [noneBanBeforeGood]
  | cons e rest ih =>
      intro h k
      cases k with
      | zero => simp [noneBanBeforeGood]
      | succ k =>
          simp only [List.take, noneBanBeforeGood, Bool.or_eq_true,
            Bool.and_eq_true] at h ⊢
          rcases h with h | ⟨h1, h2⟩
          · exact Or.inl h
          · exact Or.inr ⟨h1, ih h2 k⟩

theorem noneBanAfterTrigger_take (trigger ban : Event → Bool) :
    ∀ l : List Event, noneBanAfterTrigger trigger ban l = true →
      ∀ k, noneBanAfterTrigger trigger ban (l.take k) = true := by
  intro l
  induction l with
  | nil =>
      intro _ k
      cases k <;> simp [noneBanAfterTrigger]
  | cons e rest ih =>
      intro h k
      cases k with
      | zero => simp [noneBanAfterTrigger]
      | succ k =>
          simp only [List.take, noneBanAfterTrigger, Bool.and_eq_true] at h ⊢
          refine ⟨?_, ih h.2 k⟩
          rcases h with ⟨h1, _⟩
          by_cases ht : trigger e = true
          · simp only [ht, if_true] at h1 ⊢
            exact all_take _ _ h1 k
          · simp only [Bool.not_eq_true] at ht
            simp [ht]

theorem preRenderWindow_sems (s : State) (r : Result VkErr (Nat × Bool)) :
    (s.preRenderWindow r).1.windowSemaphoresImageAcquired
      = s.windowSemaphoresImageAcquired := by
  cases r with
  | err e => rfl
  | ok a => obtain ⟨i, b⟩ := a; rfl

theorem preRenderWindow_cursor (s : State) (r : Result VkErr (Nat × Bool)) :
    (s.preRenderWindow r).1.lastUsedAcquireSemaphore
      = (s.lastUsedAcquireSemaphore + 1) % s.windowSemaphoresImageAcquired.length := by
  cases r with
  | err e => rfl
  | ok a => obtain ⟨i, b⟩ := a; rfl

theorem iterPreRenderWindow_cursor :
    ∀ (rs : List (Result VkErr (Nat × Bool))) (s : State), rs ≠ [] →
      (iterPreRenderWindow s rs).lastUsedAcquireSemaphore
        = (s.lastUsedAcquireSemaphore + rs.length)
            % s.windowSemaphoresImageAcquired.length := by
  intro rs
  induction rs with
  | nil => intro s h; exact absurd rfl h
  | cons r rs ih =>
      intro s _
      by_cases hrs : rs = []
      · subst hrs
        show (s.preRenderWindow r).1.lastUsedAcquireSemaphore = _
        rw [preRenderWindow_cursor]
        rfl
      · show (iterPreRenderWindow (s.preRenderWindow r).1 rs).lastUsedAcquireSemaphore = _
        rw [ih _ hrs, preRenderWindow_sems, preRenderWindow_cursor,
          Nat.mod_add_mod, List.length_cons]
        have harith : s.lastUsedAcquireSemaphore + 1 + rs.length
            = s.lastUsedAcquireSemaphore + (rs.length + 1) := by omega
        rw [harith]

theorem noneBanAfterTrigger_of_all (trigger ban : Event → Bool) :
    ∀ l : List Event, l.all (fun e => !(ban e)) = true →
      noneBanAfterTrigger trigger ban l = true := by
  intro l
  induction l with
  | nil => intro _; rfl
  | cons e rest ih =>
      intro h
      rw [List.all_cons, Bool.and_eq_true] at h
      simp only [noneBanAfterTrigger, Bool.and_eq_true]
      refine ⟨?_, ih h.2⟩
      by_cases ht : trigger e = true
      · simp [ht, h.2]
      · simp only [Bool.not_eq_true] at ht
        simp [ht]

theorem noneBanAfterTrigger_append (trigger ban : Event → Bool) :
    ∀ (l₁ l₂ : List Event), l₁.all (fun e => !(trigger e)) = true →
      l₂.all (fun e => !(ban e)) = true →
      noneBanAfterTrigger trigger ban (l₁ ++ l₂) = true := by
  intro l₁
  induction l₁ with
  | nil => intro l₂ _ h₂; exact noneBanAfterTrigger_of_all trigger ban l₂ h₂
  | cons e l₁ ih =>
      intro l₂ h₁ h₂
      rw [List.all_cons, Bool.and_eq_true] at h₁
      have ht : trigger e = false := by
        have h1 := h₁.1
        cases htr : trigger e
        · rfl
        · rw [htr] at h1; simp at h1
      simp only [List.cons_append, noneBanAfterTrigger, ht, if_false,
        Bool.true_and, Bool.and_eq_true]
      exact ⟨rfl, ih l₂ h₁.2 h₂⟩

theorem destroyCalls_not_create (sc : SwapchainWindow) :
    sc.destroyCalls.all (fun e => !(Event.isCreate e)) = true := by
  show ((sc.elements.flatMap fun e => [Event.destroyImageView e.view,
      Event.destroyFramebuffer e.frameBuffer])
    ++ [Event.destroySwapchain, Event.destroyDepthImage]).all
      (fun e => !(Event.isCreate e)) = true
  induction sc.elements with
  | nil => rfl
  | cons x xs ih => simp [Event.isCreate]

theorem createPairs_not_destroy (xs : List Nat) :
    (xs.flatMap fun i => [Event.createImageView i, Event.createFramebuffer i]).all
      (fun e => !(Event.isDestroy e)) = true := by
  induction xs with
  | nil => rfl
  | cons x xs ih => simp [Event.isDestroy]

theorem createCalls_not_destroy (caps : SurfaceCapabilities)
    (presentModes : List PresentModeKHR) (driverImages : List Nat)
    (wanted : Extent2D) :
    (SwapchainWindow.create caps presentModes driverImages wanted).1.all
      (fun e => !(Event.isDestroy e)) = true := by
  rw [SwapchainWindow.create]
  cases presentModes.find? (fun m => m == PresentModeKHR.immediate) with
  | none => rfl
  | some pm =>
      by_cases h : driverImages.length = detailImageCount caps.maxImageCount
      · simp [h, Event.isDestroy, createPairs_not_destroy]
      · simp [h, Event.isDestroy]

theorem find_immediate {l : List PresentModeKHR}
    (h : PresentModeKHR.immediate ∈ l) :
    l.find? (fun m => m == PresentModeKHR.immediate)
      = some PresentModeKHR.immediate := by
  induction l with
  | nil => cases h
  | cons x xs ih =>
      rcases List.mem_cons.mp h with h1 | h2
      · subst h1; simp [List.find?]
      · by_cases hx : x = PresentModeKHR.immediate
        · subst hx; simp [List.find?]
        · have hb : (x == PresentModeKHR.immediate) = false := by
            simp [hx]
          simp [List.find?, hb, ih h2]

theorem find_immediate_none {l : List PresentModeKHR}
    (h : PresentModeKHR.immediate ∉ l) :
    l.find? (fun m => m == PresentModeKHR.immediate) = none := by
  rw [List.find?_eq_none]
  intro x hx
  by_cases hxe : x = PresentModeKHR.immediate
  · subst hxe; exact absurd hx h
  · simp [hxe]

theorem resize_trace (s : State) (waitIdleOk : Bool) (caps : SurfaceCapabilities)
    (presentModes : List PresentModeKHR) (driverImages : List Nat)
    (windowInnerSize : Extent2D) :
    (s.resize waitIdleOk caps presentModes driverImages windowInnerSize).1
      = if waitIdleOk then
          Event.queueWaitIdle :: (s.windowSwapchain.destroyCalls
            ++ (SwapchainWindow.create caps presentModes driverImages
                  windowInnerSize).1)
        else [Event.queueWaitIdle] := by
  rw [State.resize]
  cases waitIdleOk with
  | false => rfl
  | true =>
      simp only [if_true]
      cases (SwapchainWindow.create caps presentModes driverImages
          windowInnerSize).2 with
      | ok sc => rfl
      | err e => rfl

/-- C1 (amended): State::render_window, State::render_hmd and
Context::record_hmd each perform wait_and_reset on the slot's
rendering-finished fence before resetting the slot's command buffer, in every
realizable (failure-truncated) trace; Context::render_window does not—it
resets the caller-supplied command buffer with no fence wait at all (see the
counterexample theorem). -/
theorem fence_gated_command_buffer_reuse (s : State) (info : PreRenderInfoWindow)
    (hmd : ContextHMD) (i numIndices k : Nat) :
    waitGatesReset (s.windowFencesRenderingFinished.getD info.imageIndex 0)
      (s.windowCommandBuffers.getD info.imageIndex 0)
      ((s.renderWindowCalls info numIndices).take k) = true
    ∧ waitGatesReset (s.hmdFencesRenderingFinished.getD i 0)
      (s.hmdCommandBuffers.getD i 0) ((s.renderHmdCalls i).take k) = true
    ∧ waitGatesReset (hmd.fencesRenderingFinished.getD i 0)
      (hmd.commandBuffers.getD i 0)
      ((Context.recordHmdCalls hmd i numIndices).take k) = true := by
  refine ⟨?_, ?_, ?_⟩
  · apply waitGatesReset_take
    simp [State.renderWindowCalls, waitGatesReset]
  · apply waitGatesReset_take
    simp [State.renderHmdCalls, waitGatesReset]
  · apply waitGatesReset_take
    simp [Context.recordHmdCalls, waitGatesReset]

/-- C1 counterexample: a concrete Context::render_window call resets the
command buffer (handle 10) while its trace contains no fence wait or fence
reset whatsoever, so the fence-gating claimed for every render_window call
fails on the Context variant. -/
theorem context_render_window_resets_without_wait :
    waitGatesReset 20 10
      (Context.renderWindowCalls sampleContextWindow
        { imageIndex := 1, imageAcquiredSemaphore := 31 } 36 10 20 41) = false
    ∧ Event.resetCommandBuffer 10
        ∈ Context.renderWindowCalls sampleContextWindow
            { imageIndex := 1, imageAcquiredSemaphore := 31 } 36 10 20 41
    ∧ (Context.renderWindowCalls sampleContextWindow
        { imageIndex := 1, imageAcquiredSemaphore := 31 } 36 10 20 41).filter
          Event.isFenceOp = [] := by
  decide

/-- C2: State::render_window submits the slot command buffer with exactly one
wait-semaphore—the acquire semaphore returned by the immediately preceding
pre_render_window—at wait stage COLOR_ATTACHMENT_OUTPUT, exactly one
signal-semaphore (the slot's rendering-finished semaphore) and the slot's
rendering-finished fence as submit fence, and then presents exactly the
acquired image index waiting on exactly that rendering-finished semaphore. -/
theorem render_window_submission_wiring (s : State) (i numIndices : Nat)
    (suboptimal : Bool)
    (hcur : s.lastUsedAcquireSemaphore < s.windowSemaphoresImageAcquired.length)
    (hi : i < s.windowCommandBuffers.length) :
    (s.preRenderWindow (Result.ok (i, suboptimal))).2.2
        = Result.ok { imageIndex := i,
                      imageAcquiredSemaphore :=
                        s.windowSemaphoresImageAcquired.getD
                          s.lastUsedAcquireSemaphore 0 }
    ∧ ((s.preRenderWindow (Result.ok (i, suboptimal))).1.renderWindowCalls
          { imageIndex := i,
            imageAcquiredSemaphore := s.windowSemaphoresImageAcquired.getD
              s.lastUsedAcquireSemaphore 0 } numIndices).filter
          Event.isQueueSubmit
        = [Event.queueSubmit [s.windowCommandBuffers.getD i 0]
            [s.windowSemaphoresImageAcquired.getD s.lastUsedAcquireSemaphore 0]
            [colorAttachmentOutputBit]
            [s.windowSemaphoresRenderingFinished.getD i 0]
            (some (s.windowFencesRenderingFinished.getD i 0))]
    ∧ ((s.preRenderWindow (Result.ok (i, suboptimal))).1.renderWindowCalls
          { imageIndex := i,
            imageAcquiredSemaphore := s.windowSemaphoresImageAcquired.getD
              s.lastUsedAcquireSemaphore 0 } numIndices).filter
          Event.isQueuePresent
        = [Event.queuePresent [s.windowSemaphoresRenderingFinished.getD i 0] [i]] := by
  refine ⟨rfl, ?_, ?_⟩ <;>
    simp [State.preRenderWindow, State.renderWindowCalls, Event.isQueueSubmit,
      Event.isQueuePresent]

theorem render_window_submission_wiring_witness :
    (sampleState.preRenderWindow (Result.ok (1, false))).2.2
        = Result.ok { imageIndex := 1, imageAcquiredSemaphore := 30 }
    ∧ ((sampleState.preRenderWindow (Result.ok (1, false))).1.renderWindowCalls
          { imageIndex := 1, imageAcquiredSemaphore := 30 } 36).filter
          Event.isQueueSubmit
        = [Event.queueSubmit [11] [30] [colorAttachmentOutputBit] [41] (some 21)]
    ∧ ((sampleState.preRenderWindow (Result.ok (1, false))).1.renderWindowCalls
          { imageIndex := 1, imageAcquiredSemaphore := 30 } 36).filter
          Event.isQueuePresent
        = [Event.queuePresent [41] [1]] := by
  have h := render_window_submission_wiring sampleState 1 36 false
    (by decide) (by decide)
  simpa [sampleState] using h

/-- C3: pre_render_window advances the acquire-ring cursor exactly once modulo
the ring length whatever the acquire outcome, hands the acquire call the
semaphore the cursor pointed at before the advance, and after N calls (N the
ring length) the cursor is back at its starting value. -/
theorem acquire_semaphore_ring_advancement (s : State)
    (rs : List (Result VkErr (Nat × Bool)))
    (hcur : s.lastUsedAcquireSemaphore < s.windowSemaphoresImageAcquired.length)
    (hlen : rs.length = s.windowSemaphoresImageAcquired.length) :
    (∀ r : Result VkErr (Nat × Bool),
      (s.preRenderWindow r).1.lastUsedAcquireSemaphore
          = (s.lastUsedAcquireSemaphore + 1)
              % s.windowSemaphoresImageAcquired.length
        ∧ (s.preRenderWindow r).2.1
          = [Event.acquireNextImage (s.windowSemaphoresImageAcquired.getD
              s.lastUsedAcquireSemaphore 0)])
    ∧ (iterPreRenderWindow s rs).lastUsedAcquireSemaphore
        = s.lastUsedAcquireSemaphore := by
  constructor
  · intro r
    refine ⟨preRenderWindow_cursor s r, ?_⟩
    cases r with
    | err e => rfl
    | ok a => obtain ⟨idx, b⟩ := a; rfl
  · have hne : rs ≠ [] := by
      intro hnil
      rw [hnil] at hlen
      simp only [List.length_nil] at hlen
      omega
    rw [iterPreRenderWindow_cursor rs s hne, hlen, Nat.add_mod_right,
      Nat.mod_eq_of_lt hcur]

theorem acquire_semaphore_ring_advancement_witness :
    (iterPreRenderWindow sampleState
        [Result.ok (0, false), Result.err VkErr.outOfDateKhr,
         Result.ok (2, true)]).lastUsedAcquireSemaphore
      = sampleState.lastUsedAcquireSemaphore :=
  (acquire_semaphore_ring_advancement sampleState
    [Result.ok (0, false), Result.err VkErr.outOfDateKhr, Result.ok (2, true)]
    (by decide) (by decide)).2

/-- C4: with should_render false, pre_render_hmd acquires no swapchain image
and returns image_index none, and the subsequent render step performs zero
draw calls, waits on and resets no fence, submits nothing, calls
frame_stream.end with an empty composition-layer list and returns Ok; the
Context variant of pre_render_hmd likewise ends the frame stream with an
empty layer list and acquires nothing. -/
theorem hmd_skip_path (s : State) (fs : FrameState) (acq : Result String Nat)
    (endResult : Result String Unit) (hsr : fs.shouldRender = false) :
    (State.preRenderHmd fs acq).2
        = Result.ok { imageIndex := none, frameState := fs }
    ∧ Event.xrAcquireImage ∉ (State.preRenderHmd fs acq).1
    ∧ (s.renderHmd { imageIndex := none, frameState := fs } endResult).1
        = [Event.frameStreamEnd 0]
    ∧ ((s.renderHmd { imageIndex := none, frameState := fs } endResult).1.filter
        Event.isDrawCall) = []
    ∧ ((s.renderHmd { imageIndex := none, frameState := fs } endResult).1.filter
        Event.isFenceOp) = []
    ∧ ((s.renderHmd { imageIndex := none, frameState := fs } endResult).1.filter
        Event.isQueueSubmit) = []
    ∧ (s.renderHmd { imageIndex := none, frameState := fs } (Result.ok ())).2
        = Result.ok ()
    ∧ (Context.preRenderHmd fs acq).1
        = [Event.frameWait, Event.frameStreamBegin, Event.frameStreamEnd 0]
    ∧ (Context.preRenderHmd fs acq).2
        = Result.ok { imageIndex := none, frameState := fs } := by
  simp [State.preRenderHmd, State.renderHmd, Context.preRenderHmd, hsr,
    Event.isDrawCall, Event.isFenceOp, Event.isQueueSubmit]

theorem hmd_skip_path_witness :
    (State.preRenderHmd { predictedDisplayTime := 0, shouldRender := false }
        (Result.ok 0)).2
      = Result.ok { imageIndex := none,
                    frameState := { predictedDisplayTime := 0,
                                    shouldRender := false } }
    ∧ (sampleState.renderHmd
        { imageIndex := none,
          frameState := { predictedDisplayTime := 0, shouldRender := false } }
        (Result.ok ())).1 = [Event.frameStreamEnd 0] := by
  have h := hmd_skip_path sampleState
    { predictedDisplayTime := 0, shouldRender := false } (Result.ok 0)
    (Result.ok ()) rfl
  exact ⟨h.1, h.2.2.1⟩

/-- C5: every State::resize trace starts with the blocking queue wait-idle; in
every realizable (failure-truncated) trace no window-swapchain destruction
event precedes the wait-idle, and every destruction event precedes every
rebuild event. -/
theorem resize_wait_idle_before_destruction (s : State) (waitIdleOk : Bool)
    (caps : SurfaceCapabilities) (presentModes : List PresentModeKHR)
    (driverImages : List Nat) (windowInnerSize : Extent2D) (k : Nat) :
    (s.resize waitIdleOk caps presentModes driverImages windowInnerSize).1.head?
        = some Event.queueWaitIdle
    ∧ noneBanBeforeGood (fun e => e == Event.queueWaitIdle) Event.isDestroy
        (((s.resize waitIdleOk caps presentModes driverImages
            windowInnerSize).1).take k) = true
    ∧ noneBanAfterTrigger Event.isCreate Event.isDestroy
        (((s.resize waitIdleOk caps presentModes driverImages
            windowInnerSize).1).take k) = true := by
  rw [resize_trace]
  cases waitIdleOk with
  | false =>
      refine ⟨rfl, ?_, ?_⟩
      · apply noneBanBeforeGood_take
        simp [noneBanBeforeGood]
      · apply noneBanAfterTrigger_take
        simp [noneBanAfterTrigger, Event.isCreate]
  | true =>
      refine ⟨rfl, ?_, ?_⟩
      · apply noneBanBeforeGood_take
        simp [noneBanBeforeGood]
      · apply noneBanAfterTrigger_take
        rw [if_pos rfl]
        rw [show Event.queueWaitIdle :: (s.windowSwapchain.destroyCalls
            ++ (SwapchainWindow.create caps presentModes driverImages
                  windowInnerSize).1)
          = (Event.queueWaitIdle :: s.windowSwapchain.destroyCalls)
            ++ (SwapchainWindow.create caps presentModes driverImages
                  windowInnerSize).1 from rfl]
        apply noneBanAfterTrigger_append
        · rw [List.all_cons]
          rw [show (!(Event.isCreate Event.queueWaitIdle)) = true from rfl]
          rw [destroyCalls_not_create]
          rfl
        · exact createCalls_not_destroy caps presentModes driverImages
            windowInnerSize

/-- C6 (amended): State::resize never touches the per-frame command buffers,
rendering-finished fences, either semaphore array or the acquire cursor—they
are left identical whether or not the negotiated image count changed (the
claimed delta-resizing on a changed count does not happen, see the
counterexample theorem). -/
theorem resize_preserves_per_frame_resources (s : State) (waitIdleOk : Bool)
    (caps : SurfaceCapabilities) (presentModes : List PresentModeKHR)
    (driverImages : List Nat) (windowInnerSize : Extent2D) (s2 : State)
    (h : (s.resize waitIdleOk caps presentModes driverImages
        windowInnerSize).2 = Result.ok s2) :
    s2.windowCommandBuffers = s.windowCommandBuffers
    ∧ s2.windowFencesRenderingFinished = s.windowFencesRenderingFinished
    ∧ s2.windowSemaphoresImageAcquired = s.windowSemaphoresImageAcquired
    ∧ s2.windowSemaphoresRenderingFinished = s.windowSemaphoresRenderingFinished
    ∧ s2.lastUsedAcquireSemaphore = s.lastUsedAcquireSemaphore
    ∧ s2.hmdFencesRenderingFinished = s.hmdFencesRenderingFinished
    ∧ s2.hmdCommandBuffers = s.hmdCommandBuffers := by
  rw [State.resize] at h
  cases waitIdleOk with
  | false => cases h
  | true =>
      simp only [if_true] at h
      cases hc : (SwapchainWindow.create caps presentModes driverImages
          windowInnerSize).2 with
      | err e => rw [hc] at h; cases h
      | ok sc =>
          rw [hc] at h
          cases h
          exact ⟨rfl, rfl, rfl, rfl, rfl, rfl, rfl⟩

theorem resize_preserves_per_frame_resources_witness :
    resizedSampleState.windowCommandBuffers = sampleState.windowCommandBuffers
    ∧ resizedSampleState.windowFencesRenderingFinished
        = sampleState.windowFencesRenderingFinished
    ∧ resizedSampleState.windowSemaphoresImageAcquired
        = sampleState.windowSemaphoresImageAcquired
    ∧ resizedSampleState.windowSemaphoresRenderingFinished
        = sampleState.windowSemaphoresRenderingFinished
    ∧ resizedSampleState.lastUsedAcquireSemaphore
        = sampleState.lastUsedAcquireSemaphore
    ∧ resizedSampleState.hmdFencesRenderingFinished
        = sampleState.hmdFencesRenderingFinished
    ∧ resizedSampleState.hmdCommandBuffers = sampleState.hmdCommandBuffers :=
  resize_preserves_per_frame_resources sampleState true sampleCaps
    [PresentModeKHR.immediate] [100, 101, 102] { width := 800, height := 600 }
    resizedSampleState (by decide)

/-- C6 counterexample: resizing the three-image sampleState after the surface
capabilities shrink the negotiated image count to two succeeds and yields a
two-slot swapchain, yet every per-frame array still has three entries—resize
does not resize the per-frame resource arrays to the new count. -/
theorem resize_stale_per_frame_count :
    (sampleState.resize true shrunkCaps [PresentModeKHR.immediate] [100, 101]
        { width := 800, height := 600 }).2 = Result.ok staleState
    ∧ detailImageCount shrunkCaps.maxImageCount = 2
    ∧ staleState.windowSwapchain.elements.length = 2
    ∧ staleState.windowCommandBuffers.length = 3
    ∧ staleState.windowFencesRenderingFinished.length = 3
    ∧ staleState.windowSemaphoresRenderingFinished.length = 3
    ∧ staleState.windowSemaphoresImageAcquired.length = 3
    ∧ ¬ (staleState.windowCommandBuffers.length
          = detailImageCount shrunkCaps.maxImageCount) := by
  decide

/-- C7 (amended): an out-of-date error from the platform acquire or present
operation is surfaced distinctly from success as an error result—
pre_render_window propagates the acquire error and render_window propagates
the present error, neither as a panic nor a silent drop—but the example frame
loop unwraps both results (modelled as a panic outcome) rather than
triggering resize and retrying; the loop invokes resize only for the window
Resized and ScaleFactorChanged events. -/
theorem out_of_date_surfaced_distinctly (s : State) (info : PreRenderInfoWindow)
    (numIndices : Nat) (suboptimal : Bool) :
    (s.preRenderWindow (Result.err VkErr.outOfDateKhr)).2.2
        = Result.err VkErr.outOfDateKhr
    ∧ (∀ info2 : PreRenderInfoWindow,
        (s.preRenderWindow (Result.err VkErr.outOfDateKhr)).2.2
          ≠ Result.ok info2)
    ∧ (s.renderWindow info numIndices (Result.err VkErr.outOfDateKhr)).2
        = Result.err VkErr.outOfDateKhr
    ∧ (s.renderWindow info numIndices (Result.err VkErr.outOfDateKhr)).2
        ≠ Result.ok ()
    ∧ (s.renderWindow info numIndices (Result.ok suboptimal)).2 = Result.ok ()
    ∧ mainFrameWindowStep s (Result.err VkErr.outOfDateKhr)
        = LoopOutcome.panicked VkErr.outOfDateKhr
    ∧ mainRenderWindowUnwrap s info numIndices (Result.err VkErr.outOfDateKhr)
        = LoopOutcome.panicked VkErr.outOfDateKhr
    ∧ (∀ w h : Nat, resizeInvokedOn (WinEvent.resized w h) = true)
    ∧ (∀ w h : Nat, resizeInvokedOn (WinEvent.scaleFactorChanged w h) = true)
    ∧ resizeInvokedOn WinEvent.closeRequested = false
    ∧ resizeInvokedOn WinEvent.keyboardInput = false
    ∧ resizeInvokedOn WinEvent.otherEvent = false := by
  refine ⟨rfl, ?_, rfl, ?_, rfl, rfl, rfl, fun w h => rfl, fun w h => rfl,
    rfl, rfl, rfl⟩
  · intro info2 hcontra
    cases hcontra
  · intro hcontra
    cases hcontra

theorem out_of_date_surfaced_distinctly_witness :
    (sampleState.preRenderWindow (Result.err VkErr.outOfDateKhr)).2.2
        = Result.err VkErr.outOfDateKhr
    ∧ (sampleState.renderWindow
        { imageIndex := 1, imageAcquiredSemaphore := 30 } 36
        (Result.err VkErr.outOfDateKhr)).2 = Result.err VkErr.outOfDateKhr
    ∧ (sampleState.renderWindow
        { imageIndex := 1, imageAcquiredSemaphore := 30 } 36
        (Result.ok false)).2 = Result.ok ()
    ∧ mainFrameWindowStep sampleState (Result.err VkErr.outOfDateKhr)
        = LoopOutcome.panicked VkErr.outOfDateKhr
    ∧ mainRenderWindowUnwrap sampleState
        { imageIndex := 1, imageAcquiredSemaphore := 30 } 36
        (Result.err VkErr.outOfDateKhr)
        = LoopOutcome.panicked VkErr.outOfDateKhr
    ∧ (sampleState.preRenderWindow (Result.err VkErr.outOfDateKhr)).2.2
        ≠ Result.ok { imageIndex := 0, imageAcquiredSemaphore := 30 } := by
  obtain ⟨h1, h2, h3, h4, h5, h6, h7, -⟩ :=
    out_of_date_surfaced_distinctly sampleState
      { imageIndex := 1, imageAcquiredSemaphore := 30 } 36 false
  exact ⟨h1, h3, h5, h6, h7, h2 { imageIndex := 0, imageAcquiredSemaphore := 30 }⟩

/-- C7 counterexample: on the concrete out-of-date acquire failure the example
frame loop's outcome is a panic, not the resize-and-retry the claim
describes. -/
theorem main_loop_panics_on_out_of_date :
    mainFrameWindowStep sampleState (Result.err VkErr.outOfDateKhr)
      = LoopOutcome.panicked VkErr.outOfDateKhr
    ∧ mainFrameWindowStep sampleState (Result.err VkErr.outOfDateKhr)
      ≠ LoopOutcome.resizeAndRetry := by
  decide

/-- C8: the negotiated window image count is 3 capped at max_image_count when
that is positive and 3 otherwise; successful swapchain creation yields exactly
that many slots; creation fails rather than proceeding when the driver
returns a different number of images; and pre_render_window never changes the
swapchain, so the slot count changes only through a full rebuild. -/
theorem window_slot_count_invariant (caps : SurfaceCapabilities)
    (presentModes : List PresentModeKHR) (driverImages : List Nat)
    (wanted : Extent2D) (s : State) (r : Result VkErr (Nat × Bool)) :
    detailImageCount caps.maxImageCount
        = (if 0 < caps.maxImageCount then min 3 caps.maxImageCount else 3)
    ∧ (∀ sc : SwapchainWindow,
        (SwapchainWindow.create caps presentModes driverImages wanted).2
            = Result.ok sc →
          sc.elements.length = detailImageCount caps.maxImageCount)
    ∧ (driverImages.length ≠ detailImageCount caps.maxImageCount →
        ∀ sc : SwapchainWindow,
          (SwapchainWindow.create caps presentModes driverImages wanted).2
            ≠ Result.ok sc)
    ∧ (s.preRenderWindow r).1.windowSwapchain = s.windowSwapchain := by
  refine ⟨rfl, ?_, ?_, ?_⟩
  · intro sc hsc
    rw [SwapchainWindow.create] at hsc
    cases hf : presentModes.find? (fun m => m == PresentModeKHR.immediate) with
    | none => rw [hf] at hsc; cases hsc
    | some pm =>
        rw [hf] at hsc
        by_cases hl : driverImages.length = detailImageCount caps.maxImageCount
        · simp only [hl, if_true] at hsc
          cases hsc
          simp
        · simp only [hl, if_false] at hsc
          cases hsc
  · intro hl sc hsc
    rw [SwapchainWindow.create] at hsc
    cases hf : presentModes.find? (fun m => m == PresentModeKHR.immediate) with
    | none => rw [hf] at hsc; cases hsc
    | some pm =>
        rw [hf] at hsc
        simp only [hl, if_false] at hsc
        cases hsc
  · cases r with
    | err e => rfl
    | ok a => obtain ⟨idx, b⟩ := a; rfl

theorem window_slot_count_invariant_witness :
    createdSwapchain.elements.length = detailImageCount sampleCaps.maxImageCount :=
  (window_slot_count_invariant sampleCaps [PresentModeKHR.immediate]
    [100, 101, 102] { width := 800, height := 600 } sampleState
    (Result.ok (1, false))).2.1 createdSwapchain (by decide)

/-- C9: both rendering-finished fence arrays are built by creating every fence
in the signaled state, so the first wait_and_reset on any slot's fence returns
without blocking and leaves the fence unsignaled. -/
theorem fences_created_signaled_first_wait_noop
    (windowImageCount hmdImageCount i j : Nat)
    (hi : i < windowImageCount) (hj : j < hmdImageCount) :
    (stateNewWindowFencesRenderingFinished windowImageCount).getD i false = true
    ∧ waitAndResetFence
        ((stateNewWindowFencesRenderingFinished windowImageCount).getD i false)
        = (true, false)
    ∧ (stateNewHmdFencesRenderingFinished hmdImageCount).getD j false = true
    ∧ waitAndResetFence
        ((stateNewHmdFencesRenderingFinished hmdImageCount).getD j false)
        = (true, false) := by
  have h1 : (stateNewWindowFencesRenderingFinished windowImageCount).getD i false
      = true := by
    rw [stateNewWindowFencesRenderingFinished, List.getD_eq_getElem?_getD,
      List.getElem?_map, List.getElem?_range hi]
    rfl
  have h2 : (stateNewHmdFencesRenderingFinished hmdImageCount).getD j false
      = true := by
    rw [stateNewHmdFencesRenderingFinished, List.getD_eq_getElem?_getD,
      List.getElem?_map, List.getElem?_range hj]
    rfl
  exact ⟨h1, by rw [h1]; rfl, h2, by rw [h2]; rfl⟩

theorem fences_created_signaled_first_wait_noop_witness :
    (stateNewWindowFencesRenderingFinished 3).getD 0 false = true
    ∧ waitAndResetFence ((stateNewWindowFencesRenderingFinished 3).getD 0 false)
        = (true, false)
    ∧ (stateNewHmdFencesRenderingFinished 3).getD 1 false = true
    ∧ waitAndResetFence ((stateNewHmdFencesRenderingFinished 3).getD 1 false)
        = (true, false) :=
  fences_created_signaled_first_wait_noop 3 3 0 1 (by decide) (by decide)

/-- C10: window swapchain creation—used both at initialization and inside
every resize—requires the IMMEDIATE present mode: if the surface offers no
IMMEDIATE mode it fails with the error "No suitable present mode" (so a
FIFO-only platform can never build the window path), and when IMMEDIATE is
offered the swapchain is created with exactly that mode. -/
theorem immediate_present_mode_required (caps : SurfaceCapabilities)
    (presentModes : List PresentModeKHR) (driverImages : List Nat)
    (wanted : Extent2D) (s : State) :
    (PresentModeKHR.immediate ∉ presentModes →
      (SwapchainWindow.create caps presentModes driverImages wanted).2
          = Result.err "No suitable present mode"
      ∧ (s.resize true caps presentModes driverImages wanted).2
          = Result.err "No suitable present mode")
    ∧ (PresentModeKHR.immediate ∈ presentModes →
      (SwapchainWindow.create caps presentModes driverImages wanted).1.getD 1
          Event.queueWaitIdle
        = Event.createSwapchain PresentModeKHR.immediate
            (detailImageCount caps.maxImageCount)) := by
  constructor
  · intro hnot
    have hcreate : (SwapchainWindow.create caps presentModes driverImages
        wanted).2 = Result.err "No suitable present mode" := by
      rw [SwapchainWindow.create, find_immediate_none hnot]
    refine ⟨hcreate, ?_⟩
    rw [State.resize]
    simp only [if_true]
    rw [hcreate]
  · intro hmem
    rw [SwapchainWindow.create, find_immediate hmem]
    by_cases hl : driverImages.length = detailImageCount caps.maxImageCount
    · simp only [hl, if_true]
      rfl
    · simp only [hl, if_false]
      rfl

theorem immediate_present_mode_required_witness :
    (SwapchainWindow.create sampleCaps [PresentModeKHR.fifo] [100, 101, 102]
        { width := 800, height := 600 }).2
      = Result.err "No suitable present mode"
    ∧ (SwapchainWindow.create sampleCaps [PresentModeKHR.immediate]
        [100, 101, 102] { width := 800, height := 600 }).1.getD 1
          Event.queueWaitIdle
      = Event.createSwapchain PresentModeKHR.immediate
          (detailImageCount sampleCaps.maxImageCount) :=
  ⟨((immediate_present_mode_required sampleCaps [PresentModeKHR.fifo]
      [100, 101, 102] { width := 800, height := 600 } sampleState).1
      (by decide)).1,
   (immediate_present_mode_required sampleCaps [PresentModeKHR.immediate]
      [100, 101, 102] { width := 800, height := 600 } sampleState).2
      (by decide)⟩

end VRV
